import Mathlib

/-!
Verification of the backup-orchestration tool (src/backup-tool.ts).

The program is a single sequential pipeline: parse CLI arguments (yargs,
strict mode), check the two required environment variables, resolve and
create the backup directory, empty it (cleanBackupDir), call api.init
with dataDir set to the resolved backup directory, download the budget,
locate the single subdirectory the download created
(findCreatedBudgetDir), zip it (createDatedZip), delete the original
folder (deleteSourceDir), and exit.

The shallow embedding below models the top-level contents of the
destination directory as a list of entries, the external collaborators
(filesystem and Actual API) as boolean success oracles plus the list of
entries a successful download writes, and process.exit faithfully to
Node semantics: calling it terminates the process at once, so a
process.exit(1) placed inside a catch block prevents the associated
finally block from ever running.  Each run is summarised by a RunResult
that records the exit code, the final directory contents, how many times
api.shutdown was called, how many network calls were attempted, the
argument passed to api.init as its data directory, the directory
contents at the moment api.init was called, and an ordered trace of
performed steps.
-/

namespace ActualBackup

/-- A top-level entry of the backup directory (a Dirent): its name and
whether it is a directory. -/
structure Entry where
  name : String
  isDir : Bool
deriving DecidableEq, Repr

/-- A calendar date as the JS Date accessors expose it: getFullYear,
getMonth (0-indexed month) and getDate (day of month). -/
structure Date where
  year : Nat
  month0 : Nat
  day : Nat
deriving DecidableEq, Repr

/-- Left-padding with zeros to length 2, as `"x".padStart(2, ...)` does
with a zero pad character in JS. -/
def padStart2 (s : String) : String :=
  if s.length < 2 then String.mk (List.replicate (2 - s.length) '0') ++ s else s

/-- Translation of getFormattedDate from backup-tool.ts: formats a date
as YYYY-MM-DD; the month is 0-indexed in JS so the source adds 1 before
formatting, and month and day are zero-padded to two digits. -/
def getFormattedDate (d : Date) : String :=
  toString d.year ++ "-" ++ padStart2 (toString (d.month0 + 1)) ++ "-" ++ padStart2 (toString d.day)

/-- Translation of `path.join(a, b)` for a directory and a child entry name. -/
def pathJoin (a b : String) : String := a ++ "/" ++ b

/-- Translation of `path.resolve(p)` relative to the current working
directory: an absolute path (leading slash) is kept, a relative one is
joined to the working directory. -/
def pathResolve (cwd p : String) : String :=
  if p.data.head? = some '/' then p else cwd ++ "/" ++ p

/-- Translation of `path.basename(s)`: the characters after the last slash. -/
def pathBasename (s : String) : String :=
  String.mk ((s.data.reverse.takeWhile (fun c => c != '/')).reverse)

/-- Translation of findCreatedBudgetDir from backup-tool.ts: list the
entries of the base directory and keep the directories; exactly one
directory yields `path.join(baseDir, name)`, zero or several yield null
(modelled as `none`).  The source branches on the filtered length being
1, 0, or more; the match below is the same case split. -/
def findCreatedBudgetDir (baseDir : String) (entries : List Entry) : Option String :=
  let directories := entries.filter (fun e => e.isDir)
  match directories with
  | [d] => some (pathJoin baseDir d.name)
  | _ => none

/-- The name createDatedZip gives the archive: the formatted date of
`new Date()`, a space, `path.basename(sourceDirPath)`, and the zip
extension. -/
def zipFileNameOf (sourceDirPath : String) (today : Date) : String :=
  getFormattedDate today ++ " " ++ pathBasename sourceDirPath ++ ".zip"

/-- The body of cleanBackupDir: read the directory listing, then run
`fs.rm` (recursive, forced) on each listed entry in turn.  Removing an
entry deletes every object with that name. -/
def cleanBackupDir (entries : List Entry) : List Entry :=
  entries.foldl (fun acc e => acc.filter (fun x => !(x.name == e.name))) entries

/-- Truthiness of an environment variable as used by the check
`if (!serverURL || !password)`: an unset variable is undefined (falsy)
and the empty string is also falsy. -/
def truthy : Option String → Bool
  | none => false
  | some s => !(s == "")

/-- The process environment: the two variables the tool reads. -/
structure Env where
  serverURL : Option String
  serverPassword : Option String
deriving DecidableEq, Repr

/-- Result of yargs parsing: the two declared options. -/
structure ParsedArgs where
  syncId : String
  backupDir : String
deriving DecidableEq, Repr

/-- The option names (with aliases) declared to yargs: sync-id / s,
backup-dir / d and help / h. -/
def knownOption (s : String) : Bool :=
  s == "sync-id" || s == "s" || s == "backup-dir" || s == "d" || s == "help" || s == "h"

/-- Looking an option up by its long or short name. -/
def lookupOpt (args : List (String × String)) (long short : String) : Option String :=
  (args.find? (fun a => a.1 == long || a.1 == short)).map (fun a => a.2)

/-- Translation of the yargs configuration applied to the CLI options,
given as (name, value) pairs.  Strict mode rejects any option that is
not declared; demandOption on sync-id rejects an invocation without it;
backup-dir defaults to "backup".  A `none` result models the rejection:
parseAsync rejects, the promise of the IIFE is rejected, and the
top-level catch exits with code 1.  (The help early-exit path is not
modelled.) -/
def parseArgs (args : List (String × String)) : Option ParsedArgs :=
  if args.all (fun a => knownOption a.1) then
    match lookupOpt args "sync-id" "s" with
    | some sid => some ⟨sid, (lookupOpt args "backup-dir" "d").getD "backup"⟩
    | none => none
  else none

/-- Behaviour of the external collaborators during one run: the current
working directory, what the destination directory holds before the run,
whether each fallible external step succeeds, the top-level entries a
successful api.downloadBudget writes into the data directory, and the
date of the run (read by createDatedZip via `new Date()`). -/
structure World where
  cwd : String
  preexisting : List Entry
  mkdirOk : Bool
  cleanOk : Bool
  initOk : Bool
  downloadOk : Bool
  downloadedEntries : List Entry
  zipOk : Bool
  rmOk : Bool
  today : Date
deriving DecidableEq, Repr

/-- One observable step of a run, in execution order. -/
inductive Step where
  | argParse
  | envCheck
  | mkdirDest
  | cleanDest
  | apiInit
  | apiDownload
  | locateStep
  | apiShutdown
  | zipWrite
  | rmBudget
  | processExit (code : Nat)
deriving DecidableEq, Repr

/-- Summary of one run of the tool. -/
structure RunResult where
  exitCode : Nat
  dirCreated : Bool
  dirContents : List Entry
  shutdownCalls : Nat
  networkCalls : Nat
  initDataDir : Option String
  dirAtInit : Option (List Entry)
  trace : List Step
deriving DecidableEq, Repr

/-- The main IIFE of backup-tool.ts, straight-line translation of its
control flow.  process.exit is the immediate termination of Node: the
process.exit(1) inside the catch block (API and locate errors) returns
without running the finally block, so api.shutdown is not called on
those paths; on normal completion of the try block the finally block
runs api.shutdown once (guarded by the isShuttingDown latch, which no
signal has set in this signal-free model), after which the
zip-and-cleanup block runs. -/
def runMain (args : List (String × String)) (env : Env) (w : World) : RunResult :=
  match parseArgs args with
  | none =>
      -- parseAsync rejected: top-level catch, process.exit(1)
      { exitCode := 1, dirCreated := false, dirContents := w.preexisting,
        shutdownCalls := 0, networkCalls := 0, initDataDir := none, dirAtInit := none,
        trace := [Step.argParse, Step.processExit 1] }
  | some parsed =>
    if !(truthy env.serverURL) || !(truthy env.serverPassword) then
      -- missing SERVER_URL or SERVER_PASSWORD: process.exit(1)
      { exitCode := 1, dirCreated := false, dirContents := w.preexisting,
        shutdownCalls := 0, networkCalls := 0, initDataDir := none, dirAtInit := none,
        trace := [Step.argParse, Step.envCheck, Step.processExit 1] }
    else
      let resolved := pathResolve w.cwd parsed.backupDir
      if !w.mkdirOk then
        -- resolveAndVerifyBackupDir: mkdir or access failed, process.exit(1)
        { exitCode := 1, dirCreated := true, dirContents := w.preexisting,
          shutdownCalls := 0, networkCalls := 0, initDataDir := none, dirAtInit := none,
          trace := [Step.argParse, Step.envCheck, Step.mkdirDest, Step.processExit 1] }
      else if !w.cleanOk then
        -- cleanBackupDir: readdir or rm failed, process.exit(1)
        { exitCode := 1, dirCreated := true, dirContents := w.preexisting,
          shutdownCalls := 0, networkCalls := 0, initDataDir := none, dirAtInit := none,
          trace := [Step.argParse, Step.envCheck, Step.mkdirDest, Step.cleanDest,
                    Step.processExit 1] }
      else
        let dirClean := cleanBackupDir w.preexisting
        if !w.initOk then
          -- api.init threw: catch block, process.exit(1); finally skipped
          { exitCode := 1, dirCreated := true, dirContents := dirClean,
            shutdownCalls := 0, networkCalls := 1, initDataDir := some resolved,
            dirAtInit := some dirClean,
            trace := [Step.argParse, Step.envCheck, Step.mkdirDest, Step.cleanDest,
                      Step.apiInit, Step.processExit 1] }
        else if !w.downloadOk then
          -- api.downloadBudget threw: catch block, process.exit(1); finally skipped
          { exitCode := 1, dirCreated := true, dirContents := dirClean,
            shutdownCalls := 0, networkCalls := 2, initDataDir := some resolved,
            dirAtInit := some dirClean,
            trace := [Step.argParse, Step.envCheck, Step.mkdirDest, Step.cleanDest,
                      Step.apiInit, Step.apiDownload, Step.processExit 1] }
        else
          let dirDownloaded := dirClean ++ w.downloadedEntries
          match findCreatedBudgetDir resolved dirDownloaded with
          | none =>
              -- throw inside try: catch block, process.exit(1); finally skipped
              { exitCode := 1, dirCreated := true, dirContents := dirDownloaded,
                shutdownCalls := 0, networkCalls := 2, initDataDir := some resolved,
                dirAtInit := some dirClean,
                trace := [Step.argParse, Step.envCheck, Step.mkdirDest, Step.cleanDest,
                          Step.apiInit, Step.apiDownload, Step.locateStep,
                          Step.processExit 1] }
          | some budgetPath =>
              -- try completed: finally runs api.shutdown once, then the zip block
              if !w.zipOk then
                -- writeZipPromise threw: zipOrDeleteError catch, process.exit(1)
                { exitCode := 1, dirCreated := true, dirContents := dirDownloaded,
                  shutdownCalls := 1, networkCalls := 2, initDataDir := some resolved,
                  dirAtInit := some dirClean,
                  trace := [Step.argParse, Step.envCheck, Step.mkdirDest, Step.cleanDest,
                            Step.apiInit, Step.apiDownload, Step.locateStep,
                            Step.apiShutdown, Step.zipWrite, Step.processExit 1] }
              else
                let zipName := zipFileNameOf budgetPath w.today
                let dirZipped := dirDownloaded ++ [⟨zipName, false⟩]
                if !w.rmOk then
                  -- deleteSourceDir threw: zipOrDeleteError catch, process.exit(1)
                  { exitCode := 1, dirCreated := true, dirContents := dirZipped,
                    shutdownCalls := 1, networkCalls := 2, initDataDir := some resolved,
                    dirAtInit := some dirClean,
                    trace := [Step.argParse, Step.envCheck, Step.mkdirDest, Step.cleanDest,
                              Step.apiInit, Step.apiDownload, Step.locateStep,
                              Step.apiShutdown, Step.zipWrite, Step.rmBudget,
                              Step.processExit 1] }
                else
                  -- fs.rm(downloadedBudgetPath): delete the object at that path
                  { exitCode := 0, dirCreated := true,
                    dirContents :=
                      dirZipped.filter (fun x => !(pathJoin resolved x.name == budgetPath)),
                    shutdownCalls := 1, networkCalls := 2, initDataDir := some resolved,
                    dirAtInit := some dirClean,
                    trace := [Step.argParse, Step.envCheck, Step.mkdirDest, Step.cleanDest,
                              Step.apiInit, Step.apiDownload, Step.locateStep,
                              Step.apiShutdown, Step.zipWrite, Step.rmBudget,
                              Step.processExit 0] }

/-! ## The shutdown latch: isShuttingDown, gracefulShutdown and the finally block -/

/-- The process-wide latch state: the isShuttingDown flag and the number
of api.shutdown calls performed so far. -/
structure LatchState where
  isShuttingDown : Bool
  shutdownCalls : Nat
deriving DecidableEq, Repr

/-- Process start: isShuttingDown is false, no teardown performed. -/
def initialLatch : LatchState := { isShuttingDown := false, shutdownCalls := 0 }

/-- Translation of gracefulShutdown (the signal handler): return at once
when the latch is already set, otherwise set it and call api.shutdown. -/
def gracefulShutdown (s : LatchState) : LatchState :=
  if s.isShuttingDown then s
  else { isShuttingDown := true, shutdownCalls := s.shutdownCalls + 1 }

/-- Translation of the finally block of the main IIFE: when the latch is
not yet set, set it and call api.shutdown. -/
def finallyShutdown (s : LatchState) : LatchState :=
  if !s.isShuttingDown then { isShuttingDown := true, shutdownCalls := s.shutdownCalls + 1 }
  else s

/-- An entry into the shutdown path: an interrupt signal (SIGINT or
SIGTERM) or the normal completion path reaching the finally block.  JS
is single-threaded, so the flag test and set of one entry run without
interleaving; a sequence of entries is therefore a list. -/
inductive ShutdownEntry where
  | signal
  | mainFinally
deriving DecidableEq, Repr

/-- Dispatch of one entry into the shutdown path. -/
def stepShutdown (s : LatchState) (e : ShutdownEntry) : LatchState :=
  match e with
  | ShutdownEntry.signal => gracefulShutdown s
  | ShutdownEntry.mainFinally => finallyShutdown s

/-- The latch state after a sequence of entries into the shutdown path,
starting from process start. -/
def runShutdownEntries (es : List ShutdownEntry) : LatchState :=
  es.foldl stepShutdown initialLatch

/-! ## Concrete configurations used by the witnesses and counterexamples -/

/-- A typical invocation: the sync-id option with the default backup
directory. -/
def sampleArgs : List (String × String) :=
  [("sync-id", "029b71c3-9a91-42b0-8ac6-8a4650cbf15e")]

/-- The parse result of sampleArgs. -/
def sampleParsed : ParsedArgs :=
  ⟨"029b71c3-9a91-42b0-8ac6-8a4650cbf15e", "backup"⟩

/-- Both required environment variables set and non-empty. -/
def sampleEnv : Env := ⟨some "https://actual.example.org", some "hunter2"⟩

/-- The single directory a successful download creates. -/
def budgetEntry : Entry := ⟨"My-Finances-7a1809d", true⟩

/-- A fully successful run: stale content in the destination directory,
every external step succeeds, the download yields exactly one directory,
run date 2025-04-08 (JS month index 3). -/
def sampleWorld : World :=
  { cwd := "/home/user",
    preexisting := [⟨"2025-03-01 My-Finances-7a1809d.zip", false⟩, ⟨"stale-dir", true⟩],
    mkdirOk := true, cleanOk := true, initOk := true, downloadOk := true,
    downloadedEntries := [budgetEntry], zipOk := true, rmOk := true,
    today := ⟨2025, 3, 8⟩ }

/-- An invocation that additionally passes the undeclared option
backup-filename with value custom.zip. -/
def argsWithBackupFilename : List (String × String) :=
  [("sync-id", "029b71c3-9a91-42b0-8ac6-8a4650cbf15e"), ("backup-filename", "custom.zip")]

/-- Like sampleWorld but api.init throws (acquisition failure). -/
def worldAcquisitionFails : World := { sampleWorld with initOk := false }

/-- Like sampleWorld but the download leaves no subdirectory behind. -/
def worldNoArtifact : World := { sampleWorld with downloadedEntries := [] }

/-- Like sampleWorld but the download leaves two subdirectories behind. -/
def worldTwoArtifacts : World :=
  { sampleWorld with downloadedEntries := [⟨"dirA", true⟩, ⟨"dirB", true⟩] }

/-- Like sampleWorld but the removal of the downloaded folder throws. -/
def worldDeleteFails : World := { sampleWorld with rmOk := false }

/-- Like sampleWorld but the destination directory starts empty. -/
def worldEmptyDest : World := { sampleWorld with preexisting := [] }

/-- Environment with the credential missing. -/
def envMissingPassword : Env := ⟨some "https://actual.example.org", none⟩

/-! ## Helper lemmas -/

theorem takeWhile_append_stop (l1 l2 : List Char)
    (h : ∀ c ∈ l1, c ≠ '/') :
    (l1 ++ '/' :: l2).takeWhile (fun c => c != '/') = l1 := by
  induction l1 with
  | nil => simp [List.takeWhile_cons]
  | cons a t ih =>
      have ha : a ≠ '/' := h a (List.mem_cons_self a t)
      have : (a != '/') = true := bne_iff_ne.mpr ha
      simp [List.takeWhile_cons, this, ih (fun c hc => h c (List.mem_cons_of_mem a hc))]

theorem pathBasename_pathJoin (a b : String) (h : ∀ c ∈ b.data, c ≠ '/') :
    pathBasename (pathJoin a b) = b := by
  unfold pathBasename pathJoin
  have hdata : (a ++ "/" ++ b).data = (a.data ++ ['/']) ++ b.data := by
    simp [String.data_append]
  rw [hdata]
  have hrev : ((a.data ++ ['/']) ++ b.data).reverse = b.data.reverse ++ '/' :: a.data.reverse := by
    simp
  rw [hrev, takeWhile_append_stop _ _ (fun c hc => h c (List.mem_reverse.mp hc))]
  cases b
  simp

theorem cleanLoop_eq_nil (toRemove : List Entry) :
    ∀ acc : List Entry, (∀ x ∈ acc, ∃ e ∈ toRemove, x.name = e.name) →
    toRemove.foldl (fun acc e => acc.filter (fun x => !(x.name == e.name))) acc = [] := by
  induction toRemove with
  | nil =>
      intro acc h
      cases hacc : acc with
      | nil => rfl
      | cons y t =>
          obtain ⟨e, he, _⟩ := h y (by rw [hacc]; exact List.mem_cons_self y t)
          exact absurd he (List.not_mem_nil e)
  | cons e t ih =>
      intro acc h
      simp only [List.foldl_cons]
      apply ih
      intro x hx
      have hx' := List.mem_filter.mp hx
      have hne : x.name ≠ e.name := by
        have := hx'.2
        simpa [bne_iff_ne] using this
      obtain ⟨e', he', hname⟩ := h x hx'.1
      rcases List.mem_cons.mp he' with rfl | hmem
      · exact absurd hname hne
      · exact ⟨e', hmem, hname⟩

theorem cleanBackupDir_eq_nil (l : List Entry) : cleanBackupDir l = [] := by
  unfold cleanBackupDir
  exact cleanLoop_eq_nil l l (fun x hx => ⟨x, hx, rfl⟩)

theorem findCreatedBudgetDir_eq_none (base : String) (entries : List Entry)
    (h : (entries.filter (fun e => e.isDir)).length ≠ 1) :
    findCreatedBudgetDir base entries = none := by
  unfold findCreatedBudgetDir
  cases hf : entries.filter (fun e => e.isDir) with
  | nil => rfl
  | cons a t =>
      cases t with
      | nil => exact absurd (by rw [hf]; rfl) h
      | cons b t2 => rfl

theorem findCreatedBudgetDir_eq_some (base : String) (entries : List Entry) (d : Entry)
    (h : entries.filter (fun e => e.isDir) = [d]) :
    findCreatedBudgetDir base entries = some (pathJoin base d.name) := by
  unfold findCreatedBudgetDir
  rw [h]

theorem pathJoin_ne_self (base n : String) : pathJoin base n ≠ base := by
  intro h
  have hlen := congrArg String.length h
  simp only [pathJoin, String.length_append] at hlen
  have h1 : ("/" : String).length = 1 := rfl
  omega

theorem zip_entry_survives (resolved n fd : String) :
    (pathJoin resolved (fd ++ " " ++ n ++ ".zip") == pathJoin resolved n) = false := by
  apply beq_eq_false_iff_ne.mpr
  intro h
  have hlen := congrArg String.length h
  simp only [pathJoin, String.length_append] at hlen
  have h1 : ("/" : String).length = 1 := rfl
  have h2 : (" " : String).length = 1 := rfl
  have h3 : (".zip" : String).length = 4 := rfl
  omega

theorem runMain_success_eq
    (args : List (String × String)) (env : Env) (w : World) (parsed : ParsedArgs) (e : Entry)
    (hp : parseArgs args = some parsed)
    (hu : truthy env.serverURL = true) (hpw : truthy env.serverPassword = true)
    (hm : w.mkdirOk = true) (hc : w.cleanOk = true)
    (hi : w.initOk = true) (hd : w.downloadOk = true)
    (hde : w.downloadedEntries = [e]) (he : e.isDir = true)
    (hn : e.name.data.all (fun c => c != '/') = true)
    (hz : w.zipOk = true) (hr : w.rmOk = true) :
    runMain args env w =
      { exitCode := 0, dirCreated := true,
        dirContents := [⟨getFormattedDate w.today ++ " " ++ e.name ++ ".zip", false⟩],
        shutdownCalls := 1, networkCalls := 2,
        initDataDir := some (pathResolve w.cwd parsed.backupDir),
        dirAtInit := some [],
        trace := [Step.argParse, Step.envCheck, Step.mkdirDest, Step.cleanDest,
                  Step.apiInit, Step.apiDownload, Step.locateStep,
                  Step.apiShutdown, Step.zipWrite, Step.rmBudget,
                  Step.processExit 0] } := by
  have hn' : ∀ c ∈ e.name.data, c ≠ '/' := by
    intro c hc'
    exact bne_iff_ne.mp (List.all_eq_true.mp hn c hc')
  have hb : pathBasename (pathJoin (pathResolve w.cwd parsed.backupDir) e.name) = e.name :=
    pathBasename_pathJoin _ _ hn'
  have hfind : findCreatedBudgetDir (pathResolve w.cwd parsed.backupDir) [e]
      = some (pathJoin (pathResolve w.cwd parsed.backupDir) e.name) :=
    findCreatedBudgetDir_eq_some _ _ e (by simp [he])
  simp only [runMain, hp, hu, hpw, hm, hc, hi, hd, hz, hr,
    cleanBackupDir_eq_nil, List.nil_append, hde, hfind, zipFileNameOf, hb,
    Bool.not_true, Bool.or_self, if_false, ite_false,
    List.filter_append, List.filter_cons, List.filter_nil,
    beq_self_eq_true, zip_entry_survives, Bool.not_false, ite_true, if_true]
  simp

theorem runMain_locate_fail_eq
    (args : List (String × String)) (env : Env) (w : World) (parsed : ParsedArgs)
    (hp : parseArgs args = some parsed)
    (hu : truthy env.serverURL = true) (hpw : truthy env.serverPassword = true)
    (hm : w.mkdirOk = true) (hc : w.cleanOk = true)
    (hi : w.initOk = true) (hd : w.downloadOk = true)
    (hloc : findCreatedBudgetDir (pathResolve w.cwd parsed.backupDir) w.downloadedEntries = none) :
    runMain args env w =
      { exitCode := 1, dirCreated := true, dirContents := w.downloadedEntries,
        shutdownCalls := 0, networkCalls := 2,
        initDataDir := some (pathResolve w.cwd parsed.backupDir),
        dirAtInit := some [],
        trace := [Step.argParse, Step.envCheck, Step.mkdirDest, Step.cleanDest,
                  Step.apiInit, Step.apiDownload, Step.locateStep,
                  Step.processExit 1] } := by
  simp only [runMain, hp, hu, hpw, hm, hc, hi, hd,
    cleanBackupDir_eq_nil, List.nil_append, hloc,
    Bool.not_true, Bool.or_self, if_false, ite_false]
  simp

theorem runMain_rm_fail_eq
    (args : List (String × String)) (env : Env) (w : World) (parsed : ParsedArgs) (e : Entry)
    (hp : parseArgs args = some parsed)
    (hu : truthy env.serverURL = true) (hpw : truthy env.serverPassword = true)
    (hm : w.mkdirOk = true) (hc : w.cleanOk = true)
    (hi : w.initOk = true) (hd : w.downloadOk = true)
    (hde : w.downloadedEntries = [e]) (he : e.isDir = true)
    (hn : e.name.data.all (fun c => c != '/') = true)
    (hz : w.zipOk = true) (hr : w.rmOk = false) :
    runMain args env w =
      { exitCode := 1, dirCreated := true,
        dirContents := [e, ⟨getFormattedDate w.today ++ " " ++ e.name ++ ".zip", false⟩],
        shutdownCalls := 1, networkCalls := 2,
        initDataDir := some (pathResolve w.cwd parsed.backupDir),
        dirAtInit := some [],
        trace := [Step.argParse, Step.envCheck, Step.mkdirDest, Step.cleanDest,
                  Step.apiInit, Step.apiDownload, Step.locateStep,
                  Step.apiShutdown, Step.zipWrite, Step.rmBudget,
                  Step.processExit 1] } := by
  have hn' : ∀ c ∈ e.name.data, c ≠ '/' := by
    intro c hc'
    exact bne_iff_ne.mp (List.all_eq_true.mp hn c hc')
  have hb : pathBasename (pathJoin (pathResolve w.cwd parsed.backupDir) e.name) = e.name :=
    pathBasename_pathJoin _ _ hn'
  have hfind : findCreatedBudgetDir (pathResolve w.cwd parsed.backupDir) [e]
      = some (pathJoin (pathResolve w.cwd parsed.backupDir) e.name) :=
    findCreatedBudgetDir_eq_some _ _ e (by simp [he])
  simp only [runMain, hp, hu, hpw, hm, hc, hi, hd, hz, hr,
    cleanBackupDir_eq_nil, List.nil_append, hde, hfind, zipFileNameOf, hb,
    Bool.not_true, Bool.or_self, if_false, ite_false]
  simp

theorem parseArgs_unknown_none
    (args : List (String × String))
    (h : args.any (fun a => a.1 == "backup-filename" || a.1 == "f") = true) :
    parseArgs args = none := by
  have hall : args.all (fun a => knownOption a.1) = false := by
    obtain ⟨a, ha, hab⟩ := List.any_eq_true.mp h
    apply List.all_eq_false.mpr
    refine ⟨a, ha, ?_⟩
    rcases Bool.or_eq_true_iff.mp hab with hb | hb <;>
      · have := eq_of_beq hb
        simp [knownOption, this]
  simp [parseArgs, hall]

theorem foldl_stepShutdown_fixed (es : List ShutdownEntry) :
    ∀ s : LatchState, s.isShuttingDown = true → List.foldl stepShutdown s es = s := by
  induction es with
  | nil => intro s _; rfl
  | cons e t ih =>
      intro s h
      have hstep : stepShutdown s e = s := by
        cases e <;> simp [stepShutdown, gracefulShutdown, finallyShutdown, h]
      rw [List.foldl_cons, hstep, ih s h]

theorem stepShutdown_initial (e : ShutdownEntry) :
    stepShutdown initialLatch e = { isShuttingDown := true, shutdownCalls := 1 } := by
  cases e <;> rfl

/-! ## The claims -/

/-- C1: for every run with valid arguments and environment in which every
external step succeeds and the acquisition step populates the destination
directory with exactly one top-level subdirectory, the program exits with
code 0 and the destination directory ends up containing exactly one
entry, which is a zip archive file — so the downloaded budget
subdirectory has been deleted and no directory remains. -/
theorem run_success_single_archive
    (args : List (String × String)) (env : Env) (w : World) (parsed : ParsedArgs) (e : Entry)
    (hp : parseArgs args = some parsed)
    (hu : truthy env.serverURL = true) (hpw : truthy env.serverPassword = true)
    (hm : w.mkdirOk = true) (hc : w.cleanOk = true)
    (hi : w.initOk = true) (hd : w.downloadOk = true)
    (hde : w.downloadedEntries = [e]) (he : e.isDir = true)
    (hn : e.name.data.all (fun c => c != '/') = true)
    (hz : w.zipOk = true) (hr : w.rmOk = true) :
    (runMain args env w).exitCode = 0 ∧
    (∃ stem : String, (runMain args env w).dirContents = [⟨stem ++ ".zip", false⟩]) ∧
    (runMain args env w).dirContents.all (fun x => !x.isDir) = true := by
  rw [runMain_success_eq args env w parsed e hp hu hpw hm hc hi hd hde he hn hz hr]
  exact ⟨rfl, ⟨getFormattedDate w.today ++ " " ++ e.name, rfl⟩, rfl⟩

theorem run_success_single_archive_witness :
    (parseArgs sampleArgs = some sampleParsed ∧
     truthy sampleEnv.serverURL = true ∧ truthy sampleEnv.serverPassword = true ∧
     sampleWorld.mkdirOk = true ∧ sampleWorld.cleanOk = true ∧
     sampleWorld.initOk = true ∧ sampleWorld.downloadOk = true ∧
     sampleWorld.downloadedEntries = [budgetEntry] ∧ budgetEntry.isDir = true ∧
     budgetEntry.name.data.all (fun c => c != '/') = true ∧
     sampleWorld.zipOk = true ∧ sampleWorld.rmOk = true) ∧
    ((runMain sampleArgs sampleEnv sampleWorld).exitCode = 0 ∧
     (∃ stem : String,
        (runMain sampleArgs sampleEnv sampleWorld).dirContents = [⟨stem ++ ".zip", false⟩]) ∧
     (runMain sampleArgs sampleEnv sampleWorld).dirContents.all (fun x => !x.isDir) = true) :=
  ⟨by decide,
   run_success_single_archive sampleArgs sampleEnv sampleWorld sampleParsed budgetEntry
     (by decide) (by decide) (by decide) (by decide) (by decide) (by decide) (by decide)
     (by decide) (by decide) (by decide) (by decide) (by decide)⟩

/-- C2: the claim states that every fatal error aborts only after
api.shutdown has run, exactly once per process.  The code contradicts
this: the process.exit(1) inside the catch block terminates the process
without running the finally block, so on an acquisition failure
(api.init throws) and on an artifact-location failure the process exits
with code 1 having called api.shutdown zero times. -/
theorem shutdown_skipped_on_fatal_error :
    ((runMain sampleArgs sampleEnv worldAcquisitionFails).exitCode = 1 ∧
     (runMain sampleArgs sampleEnv worldAcquisitionFails).networkCalls = 1 ∧
     (runMain sampleArgs sampleEnv worldAcquisitionFails).shutdownCalls = 0) ∧
    ((runMain sampleArgs sampleEnv worldNoArtifact).exitCode = 1 ∧
     (runMain sampleArgs sampleEnv worldNoArtifact).shutdownCalls = 0) := by
  decide

/-- C3: after a successful download, if the destination directory holds
zero or at least two top-level subdirectories, the locator returns none,
the run exits with code 1 and no archive is written; if it holds exactly
one subdirectory, the locator returns the joined path of that
subdirectory. -/
theorem locator_policy
    (args : List (String × String)) (env : Env) (w : World) (parsed : ParsedArgs)
    (hp : parseArgs args = some parsed)
    (hu : truthy env.serverURL = true) (hpw : truthy env.serverPassword = true)
    (hm : w.mkdirOk = true) (hc : w.cleanOk = true)
    (hi : w.initOk = true) (hd : w.downloadOk = true) :
    ((w.downloadedEntries.filter (fun x => x.isDir)).length = 0 ∨
        2 ≤ (w.downloadedEntries.filter (fun x => x.isDir)).length →
      findCreatedBudgetDir (pathResolve w.cwd parsed.backupDir) w.downloadedEntries = none ∧
      (runMain args env w).exitCode = 1 ∧
      Step.zipWrite ∉ (runMain args env w).trace) ∧
    (∀ d : Entry, w.downloadedEntries.filter (fun x => x.isDir) = [d] →
      findCreatedBudgetDir (pathResolve w.cwd parsed.backupDir) w.downloadedEntries =
        some (pathJoin (pathResolve w.cwd parsed.backupDir) d.name)) := by
  constructor
  · intro hlen
    have hne : (w.downloadedEntries.filter (fun x => x.isDir)).length ≠ 1 := by omega
    have hloc := findCreatedBudgetDir_eq_none (pathResolve w.cwd parsed.backupDir)
      w.downloadedEntries hne
    refine ⟨hloc, ?_, ?_⟩
    · rw [runMain_locate_fail_eq args env w parsed hp hu hpw hm hc hi hd hloc]
    · rw [runMain_locate_fail_eq args env w parsed hp hu hpw hm hc hi hd hloc]
      simp
  · intro d hd1
    exact findCreatedBudgetDir_eq_some _ _ d hd1

theorem locator_policy_witness :
    ((parseArgs sampleArgs = some sampleParsed ∧
      truthy sampleEnv.serverURL = true ∧ truthy sampleEnv.serverPassword = true ∧
      worldTwoArtifacts.mkdirOk = true ∧ worldTwoArtifacts.cleanOk = true ∧
      worldTwoArtifacts.initOk = true ∧ worldTwoArtifacts.downloadOk = true ∧
      2 ≤ (worldTwoArtifacts.downloadedEntries.filter (fun x => x.isDir)).length) ∧
     (findCreatedBudgetDir (pathResolve worldTwoArtifacts.cwd sampleParsed.backupDir)
        worldTwoArtifacts.downloadedEntries = none ∧
      (runMain sampleArgs sampleEnv worldTwoArtifacts).exitCode = 1 ∧
      Step.zipWrite ∉ (runMain sampleArgs sampleEnv worldTwoArtifacts).trace)) ∧
    ((sampleWorld.downloadedEntries.filter (fun x => x.isDir) = [budgetEntry]) ∧
     findCreatedBudgetDir (pathResolve sampleWorld.cwd sampleParsed.backupDir)
        sampleWorld.downloadedEntries =
       some (pathJoin (pathResolve sampleWorld.cwd sampleParsed.backupDir) budgetEntry.name)) :=
  ⟨⟨by decide,
    (locator_policy sampleArgs sampleEnv worldTwoArtifacts sampleParsed
       (by decide) (by decide) (by decide) (by decide) (by decide) (by decide) (by decide)).1
      (Or.inr (by decide))⟩,
   ⟨by decide,
    (locator_policy sampleArgs sampleEnv sampleWorld sampleParsed
       (by decide) (by decide) (by decide) (by decide) (by decide) (by decide) (by decide)).2
      budgetEntry (by decide)⟩⟩

/-- C4: on a successful run with no explicit archive filename (the tool
has no such option), the produced archive is the single entry of the
destination directory and its name is the run date formatted YYYY-MM-DD
(via getFormattedDate, month and day zero-padded), a space, the base
name of the artifact directory, and the zip extension.  The witness
instantiates this to the directory My-Finances-7a1809d archived on
2025-04-08. -/
theorem default_archive_name
    (args : List (String × String)) (env : Env) (w : World) (parsed : ParsedArgs) (e : Entry)
    (hp : parseArgs args = some parsed)
    (hu : truthy env.serverURL = true) (hpw : truthy env.serverPassword = true)
    (hm : w.mkdirOk = true) (hc : w.cleanOk = true)
    (hi : w.initOk = true) (hd : w.downloadOk = true)
    (hde : w.downloadedEntries = [e]) (he : e.isDir = true)
    (hn : e.name.data.all (fun c => c != '/') = true)
    (hz : w.zipOk = true) (hr : w.rmOk = true) :
    (runMain args env w).dirContents =
      [⟨getFormattedDate w.today ++ " " ++ e.name ++ ".zip", false⟩] := by
  rw [runMain_success_eq args env w parsed e hp hu hpw hm hc hi hd hde he hn hz hr]

theorem default_archive_name_witness :
    (parseArgs sampleArgs = some sampleParsed ∧
     truthy sampleEnv.serverURL = true ∧ truthy sampleEnv.serverPassword = true ∧
     sampleWorld.mkdirOk = true ∧ sampleWorld.cleanOk = true ∧
     sampleWorld.initOk = true ∧ sampleWorld.downloadOk = true ∧
     sampleWorld.downloadedEntries = [budgetEntry] ∧ budgetEntry.isDir = true ∧
     budgetEntry.name.data.all (fun c => c != '/') = true ∧
     sampleWorld.zipOk = true ∧ sampleWorld.rmOk = true) ∧
    (runMain sampleArgs sampleEnv sampleWorld).dirContents =
      [⟨"2025-04-08 My-Finances-7a1809d.zip", false⟩] :=
  ⟨by decide,
   by
     have h := default_archive_name sampleArgs sampleEnv sampleWorld sampleParsed budgetEntry
       (by decide) (by decide) (by decide) (by decide) (by decide) (by decide) (by decide)
       (by decide) (by decide) (by decide) (by decide) (by decide)
     exact h.trans (by decide)⟩

/-- C5 counterexample: the CLI declares no backup-filename option, and
yargs runs in strict mode, so an invocation passing
backup-filename custom.zip is rejected: the run exits with code 1 before
touching the filesystem, and no archive named custom.zip (nor any other
file) is produced — refuting the claim that such a run produces an
archive with exactly that name. -/
theorem backup_filename_rejected :
    (runMain argsWithBackupFilename sampleEnv worldEmptyDest).exitCode = 1 ∧
    (runMain argsWithBackupFilename sampleEnv worldEmptyDest).dirCreated = false ∧
    (runMain argsWithBackupFilename sampleEnv worldEmptyDest).dirContents = [] ∧
    Step.zipWrite ∉ (runMain argsWithBackupFilename sampleEnv worldEmptyDest).trace := by
  decide

/-- C5 amended: there is no backup-filename (or f) option; because
argument parsing is strict, any run supplying one fails with exit code 1
before any filesystem or network action and produces no archive, and the
date and artifact-name composition is the only naming rule. -/
theorem backup_filename_unsupported
    (args : List (String × String)) (env : Env) (w : World)
    (h : args.any (fun a => a.1 == "backup-filename" || a.1 == "f") = true) :
    parseArgs args = none ∧
    (runMain args env w).exitCode = 1 ∧
    (runMain args env w).dirCreated = false ∧
    (runMain args env w).dirContents = w.preexisting ∧
    Step.zipWrite ∉ (runMain args env w).trace := by
  have hnone := parseArgs_unknown_none args h
  refine ⟨hnone, ?_⟩
  simp [runMain, hnone]

theorem backup_filename_unsupported_witness :
    (argsWithBackupFilename.any
        (fun a => a.1 == "backup-filename" || a.1 == "f") = true) ∧
    (parseArgs argsWithBackupFilename = none ∧
     (runMain argsWithBackupFilename sampleEnv sampleWorld).exitCode = 1 ∧
     (runMain argsWithBackupFilename sampleEnv sampleWorld).dirCreated = false ∧
     (runMain argsWithBackupFilename sampleEnv sampleWorld).dirContents =
        sampleWorld.preexisting ∧
     Step.zipWrite ∉ (runMain argsWithBackupFilename sampleEnv sampleWorld).trace) :=
  ⟨by decide,
   backup_filename_unsupported argsWithBackupFilename sampleEnv sampleWorld (by decide)⟩

/-- C6 counterexample: a run whose archive was created successfully (the
zip step appears in the trace before the deletion step and the archive is
in the destination directory) but whose deletion of the downloaded
budget folder fails exits with code 1, not 0 as the claim states: the
zipOrDeleteError catch block calls process.exit(1). -/
theorem delete_failure_fails_run :
    (runMain sampleArgs sampleEnv worldDeleteFails).trace =
      [Step.argParse, Step.envCheck, Step.mkdirDest, Step.cleanDest,
       Step.apiInit, Step.apiDownload, Step.locateStep,
       Step.apiShutdown, Step.zipWrite, Step.rmBudget, Step.processExit 1] ∧
    (runMain sampleArgs sampleEnv worldDeleteFails).dirContents =
      [budgetEntry, ⟨"2025-04-08 My-Finances-7a1809d.zip", false⟩] ∧
    (runMain sampleArgs sampleEnv worldDeleteFails).exitCode = 1 := by
  have h := runMain_rm_fail_eq sampleArgs sampleEnv worldDeleteFails sampleParsed budgetEntry
    (by decide) (by decide) (by decide) (by decide) (by decide) (by decide) (by decide)
    (by decide) (by decide) (by decide) (by decide) (by decide)
  rw [h]
  exact ⟨rfl, by decide, rfl⟩

/-- C6 amended: after the archive has been successfully created, a
failure to delete the downloaded budget directory makes the run exit
with code 1 (the failure is logged and treated as fatal by the
zipOrDeleteError catch block); the archive file and the budget directory
both remain in the destination directory. -/
theorem delete_failure_exits_nonzero
    (args : List (String × String)) (env : Env) (w : World) (parsed : ParsedArgs) (e : Entry)
    (hp : parseArgs args = some parsed)
    (hu : truthy env.serverURL = true) (hpw : truthy env.serverPassword = true)
    (hm : w.mkdirOk = true) (hc : w.cleanOk = true)
    (hi : w.initOk = true) (hd : w.downloadOk = true)
    (hde : w.downloadedEntries = [e]) (he : e.isDir = true)
    (hn : e.name.data.all (fun c => c != '/') = true)
    (hz : w.zipOk = true) (hr : w.rmOk = false) :
    (runMain args env w).exitCode = 1 ∧
    (⟨getFormattedDate w.today ++ " " ++ e.name ++ ".zip", false⟩ : Entry) ∈
      (runMain args env w).dirContents ∧
    e ∈ (runMain args env w).dirContents := by
  rw [runMain_rm_fail_eq args env w parsed e hp hu hpw hm hc hi hd hde he hn hz hr]
  refine ⟨rfl, ?_, ?_⟩ <;> simp

theorem delete_failure_exits_nonzero_witness :
    (parseArgs sampleArgs = some sampleParsed ∧
     truthy sampleEnv.serverURL = true ∧ truthy sampleEnv.serverPassword = true ∧
     worldDeleteFails.mkdirOk = true ∧ worldDeleteFails.cleanOk = true ∧
     worldDeleteFails.initOk = true ∧ worldDeleteFails.downloadOk = true ∧
     worldDeleteFails.downloadedEntries = [budgetEntry] ∧ budgetEntry.isDir = true ∧
     budgetEntry.name.data.all (fun c => c != '/') = true ∧
     worldDeleteFails.zipOk = true ∧ worldDeleteFails.rmOk = false) ∧
    ((runMain sampleArgs sampleEnv worldDeleteFails).exitCode = 1 ∧
     (⟨getFormattedDate worldDeleteFails.today ++ " " ++ budgetEntry.name ++ ".zip", false⟩ :
        Entry) ∈ (runMain sampleArgs sampleEnv worldDeleteFails).dirContents ∧
     budgetEntry ∈ (runMain sampleArgs sampleEnv worldDeleteFails).dirContents) :=
  ⟨by decide,
   delete_failure_exits_nonzero sampleArgs sampleEnv worldDeleteFails sampleParsed budgetEntry
     (by decide) (by decide) (by decide) (by decide) (by decide) (by decide) (by decide)
     (by decide) (by decide) (by decide) (by decide) (by decide)⟩

/-- C7 counterexample: the program creates no uniquely named temporary
workspace.  In a concrete successful run, the data directory handed to
api.init — the directory the acquisition step writes into — is the
resolved destination directory /home/user/backup itself, not a
subdirectory of it. -/
theorem acquisition_uses_destination_itself :
    (runMain sampleArgs sampleEnv sampleWorld).initDataDir = some "/home/user/backup" ∧
    pathResolve sampleWorld.cwd sampleParsed.backupDir = "/home/user/backup" := by
  decide

/-- C7 amended: no temporary workspace directory is created: the
acquisition step is given the resolved destination directory itself as
its data directory — never any subdirectory of it — and sequential runs
against the same destination succeed regardless of its prior contents,
because the destination is emptied at the start of each run. -/
theorem acquisition_writes_into_destination
    (args : List (String × String)) (env : Env) (w : World) (parsed : ParsedArgs) (e : Entry)
    (hp : parseArgs args = some parsed)
    (hu : truthy env.serverURL = true) (hpw : truthy env.serverPassword = true)
    (hm : w.mkdirOk = true) (hc : w.cleanOk = true)
    (hi : w.initOk = true) (hd : w.downloadOk = true)
    (hde : w.downloadedEntries = [e]) (he : e.isDir = true)
    (hn : e.name.data.all (fun c => c != '/') = true)
    (hz : w.zipOk = true) (hr : w.rmOk = true) :
    (runMain args env w).initDataDir = some (pathResolve w.cwd parsed.backupDir) ∧
    (∀ sub : String,
      (runMain args env w).initDataDir ≠
        some (pathJoin (pathResolve w.cwd parsed.backupDir) sub)) ∧
    (runMain args env w).exitCode = 0 := by
  rw [runMain_success_eq args env w parsed e hp hu hpw hm hc hi hd hde he hn hz hr]
  refine ⟨rfl, ?_, rfl⟩
  intro sub hEq
  exact pathJoin_ne_self (pathResolve w.cwd parsed.backupDir) sub
    (Option.some.inj hEq).symm

theorem acquisition_writes_into_destination_witness :
    (parseArgs sampleArgs = some sampleParsed ∧
     truthy sampleEnv.serverURL = true ∧ truthy sampleEnv.serverPassword = true ∧
     sampleWorld.mkdirOk = true ∧ sampleWorld.cleanOk = true ∧
     sampleWorld.initOk = true ∧ sampleWorld.downloadOk = true ∧
     sampleWorld.downloadedEntries = [budgetEntry] ∧ budgetEntry.isDir = true ∧
     budgetEntry.name.data.all (fun c => c != '/') = true ∧
     sampleWorld.zipOk = true ∧ sampleWorld.rmOk = true) ∧
    ((runMain sampleArgs sampleEnv sampleWorld).initDataDir =
        some (pathResolve sampleWorld.cwd sampleParsed.backupDir) ∧
     (runMain sampleArgs sampleEnv sampleWorld).initDataDir ≠
        some (pathJoin (pathResolve sampleWorld.cwd sampleParsed.backupDir) "tmp-workspace") ∧
     (runMain sampleArgs sampleEnv sampleWorld).exitCode = 0) :=
  ⟨by decide,
   by
     have h := acquisition_writes_into_destination sampleArgs sampleEnv sampleWorld
       sampleParsed budgetEntry
       (by decide) (by decide) (by decide) (by decide) (by decide) (by decide) (by decide)
       (by decide) (by decide) (by decide) (by decide) (by decide)
     exact ⟨h.1, h.2.1 "tmp-workspace", h.2.2⟩⟩

/-- C8: if either required environment variable is unset, the process
exits with code 1 before any filesystem action (the destination
directory is not created, its contents are untouched) and before any
network call (neither api.init nor api.downloadBudget is attempted). -/
theorem env_missing_exits_before_io
    (args : List (String × String)) (env : Env) (w : World)
    (h : env.serverURL = none ∨ env.serverPassword = none) :
    (runMain args env w).exitCode = 1 ∧
    (runMain args env w).dirCreated = false ∧
    (runMain args env w).networkCalls = 0 ∧
    (runMain args env w).dirContents = w.preexisting ∧
    Step.mkdirDest ∉ (runMain args env w).trace ∧
    Step.apiInit ∉ (runMain args env w).trace ∧
    Step.apiDownload ∉ (runMain args env w).trace := by
  have henv : (!(truthy env.serverURL) || !(truthy env.serverPassword)) = true := by
    rcases h with h | h <;> simp [h, truthy]
  cases hp : parseArgs args with
  | none => simp [runMain, hp]
  | some parsed => simp [runMain, hp, henv]

theorem env_missing_exits_before_io_witness :
    (envMissingPassword.serverURL = none ∨ envMissingPassword.serverPassword = none) ∧
    ((runMain sampleArgs envMissingPassword sampleWorld).exitCode = 1 ∧
     (runMain sampleArgs envMissingPassword sampleWorld).dirCreated = false ∧
     (runMain sampleArgs envMissingPassword sampleWorld).networkCalls = 0 ∧
     (runMain sampleArgs envMissingPassword sampleWorld).dirContents =
        sampleWorld.preexisting ∧
     Step.mkdirDest ∉ (runMain sampleArgs envMissingPassword sampleWorld).trace ∧
     Step.apiInit ∉ (runMain sampleArgs envMissingPassword sampleWorld).trace ∧
     Step.apiDownload ∉ (runMain sampleArgs envMissingPassword sampleWorld).trace) :=
  ⟨Or.inr rfl,
   env_missing_exits_before_io sampleArgs envMissingPassword sampleWorld (Or.inr rfl)⟩

/-- C9: the shutdown latch is false at process start; after any sequence
of entries into the shutdown path (interrupt signals and/or the finally
block of the main pipeline, in any order), the latch is set exactly when
at least one entry occurred and is never reset, and api.shutdown has
been called exactly once if any entry occurred — in particular at most
once, even for two signals in rapid succession or a signal racing normal
completion. -/
theorem shutdown_latch_at_most_once :
    initialLatch.isShuttingDown = false ∧
    ∀ es : List ShutdownEntry,
      (runShutdownEntries es).isShuttingDown = !es.isEmpty ∧
      (runShutdownEntries es).shutdownCalls = if es.isEmpty then 0 else 1 := by
  refine ⟨rfl, ?_⟩
  intro es
  cases es with
  | nil => exact ⟨rfl, rfl⟩
  | cons e t =>
      have h1 : runShutdownEntries (e :: t) = { isShuttingDown := true, shutdownCalls := 1 } := by
        unfold runShutdownEntries
        rw [List.foldl_cons, stepShutdown_initial]
        exact foldl_stepShutdown_fixed t _ rfl
      rw [h1]
      exact ⟨rfl, rfl⟩

/-- C10: every run that reaches the acquisition step first removes all
pre-existing top-level entries of the resolved destination directory
(cleanBackupDir empties it), and does so before api.init is called: the
directory contents observed at api.init time are empty, and the cleaning
step precedes the API call in the trace. -/
theorem clean_before_init
    (args : List (String × String)) (env : Env) (w : World) (parsed : ParsedArgs)
    (hp : parseArgs args = some parsed)
    (hu : truthy env.serverURL = true) (hpw : truthy env.serverPassword = true)
    (hm : w.mkdirOk = true) (hc : w.cleanOk = true) :
    cleanBackupDir w.preexisting = [] ∧
    (runMain args env w).dirAtInit = some [] ∧
    (runMain args env w).trace.take 5 =
      [Step.argParse, Step.envCheck, Step.mkdirDest, Step.cleanDest, Step.apiInit] := by
  refine ⟨cleanBackupDir_eq_nil w.preexisting, ?_⟩
  simp only [runMain, hp, hu, hpw, hm, hc, cleanBackupDir_eq_nil, List.nil_append,
    Bool.not_true, Bool.or_self, if_false, ite_false]
  cases hi : w.initOk <;> cases hd : w.downloadOk <;>
    cases hloc : findCreatedBudgetDir (pathResolve w.cwd parsed.backupDir) w.downloadedEntries <;>
    cases hz : w.zipOk <;> cases hr : w.rmOk <;>
    simp [hloc, List.take]

theorem clean_before_init_witness :
    (parseArgs sampleArgs = some sampleParsed ∧
     truthy sampleEnv.serverURL = true ∧ truthy sampleEnv.serverPassword = true ∧
     sampleWorld.mkdirOk = true ∧ sampleWorld.cleanOk = true) ∧
    (cleanBackupDir sampleWorld.preexisting = [] ∧
     (runMain sampleArgs sampleEnv sampleWorld).dirAtInit = some [] ∧
     (runMain sampleArgs sampleEnv sampleWorld).trace.take 5 =
       [Step.argParse, Step.envCheck, Step.mkdirDest, Step.cleanDest, Step.apiInit]) :=
  ⟨by decide,
   clean_before_init sampleArgs sampleEnv sampleWorld sampleParsed
     (by decide) (by decide) (by decide) (by decide) (by decide)⟩

end ActualBackup
